import Mathlib

/-!
Verification of the KartQuake shopping-assistant backend's core planning
logic: constraint parsing (app/models/trip_session.py), catalog matching
(app/catalog/fredmeyer_demo.py), and plan building, filtering, discounting
and selection (app/api/v1/plans.py, app/api/v1/chat.py).

Conventions of the embedding:
- Python floats are modelled as exact rationals (`ℚ`); `round(x, n)` is
  modelled by exact rational rounding to n decimal places (Python rounds the
  nearest binary float half-to-even; no property below depends on tie
  behaviour).
- Python strings are modelled as `String` / `List Char`; `str.lower()` is
  modelled by ASCII lowercasing (all phrases the source matches are ASCII),
  and the regex `\s` by ASCII whitespace.
- Database rows are modelled as values, and in-place mutation by functions
  returning the updated value.
-/

namespace KartQuake

/-! ## Character and string helpers -/

/-- Whether the first list starts with the second (character-wise). -/
def charsStartWith : List Char → List Char → Bool
  | _, [] => true
  | [], _ :: _ => false
  | c :: cs, p :: ps => c == p && charsStartWith cs ps

/-- Whether `pat` occurs as a contiguous substring of the second list.
Models Python's `pat in s` on strings. -/
def charsContain (pat : List Char) : List Char → Bool
  | [] => pat.isEmpty
  | c :: rest => charsStartWith (c :: rest) pat || charsContain pat rest

/-- ASCII lowercasing of a character list; models Python `str.lower()` on the
ASCII texts the parser matches. -/
def lowerChars (l : List Char) : List Char := l.map Char.toLower

/-- ASCII whitespace; models the regex class `\s` on the ASCII inputs used. -/
def isWs (c : Char) : Bool := c == ' ' || c == '\t' || c == '\n' || c == '\r'

/-- Word characters of the regex class `\w` (ASCII part), for `\b` boundaries. -/
def isWordChar (c : Char) : Bool := c.isAlphanum || c == '_'

/-- Numeric value of a decimal digit run. -/
def digitsToNat (ds : List Char) : Nat :=
  ds.foldl (fun n c => n * 10 + (c.toNat - 48)) 0

/-! ## Constraint parser (app/models/trip_session.py) -/

/-- Attempt, at the position just after a trigger word, the rest of the
pattern `\s+(?:to\s+)?(\d+)` of `_parse_int_after`: one or more whitespace,
an optional literal "to" followed by whitespace, then a digit run.
Returns the captured integer. -/
def afterTrigger (rest : List Char) : Option Nat :=
  let ws := rest.takeWhile isWs
  let r1 := rest.dropWhile isWs
  if ws.isEmpty then none
  else
    match r1 with
    | 't' :: 'o' :: r2 =>
      let ws2 := r2.takeWhile isWs
      let r3 := r2.dropWhile isWs
      let ds := r3.takeWhile Char.isDigit
      if !ws2.isEmpty && !ds.isEmpty then some (digitsToNat ds) else none
    | _ =>
      let ds := r1.takeWhile Char.isDigit
      if ds.isEmpty then none else some (digitsToNat ds)

/-- Leftmost match of `word\s+(?:to\s+)?(\d+)` in `t`, as `re.search` finds
it: at each occurrence of `word` (no word boundary in the source pattern),
try the tail pattern; first success wins. -/
def searchIntAfter (word : List Char) : List Char → Option Nat
  | [] => none
  | c :: rest =>
    match
      (if charsStartWith (c :: rest) word
       then afterTrigger (List.drop word.length (c :: rest)) else none) with
    | some n => some n
    | none => searchIntAfter word rest

/-- Model of `_parse_int_after(text, trigger_words)`: the first trigger word
whose pattern matches yields the integer. -/
def parseIntAfter (t : List Char) : List String → Option Nat
  | [] => none
  | w :: ws =>
    match searchIntAfter w.toList t with
    | some n => some n
    | none => parseIntAfter t ws

/-- Whether the regex `\b1\s+store\s+only\b` matches at the head of `s`
(the caller has already checked the left word boundary). -/
def matchOneStoreAt (s : List Char) : Bool :=
  match s with
  | '1' :: r1 =>
    let ws1 := r1.takeWhile isWs
    let r2 := r1.dropWhile isWs
    if ws1.isEmpty then false
    else if charsStartWith r2 "store".toList then
      let r3 := r2.drop 5
      let ws2 := r3.takeWhile isWs
      let r4 := r3.dropWhile isWs
      if ws2.isEmpty then false
      else if charsStartWith r4 "only".toList then
        match r4.drop 4 with
        | [] => true
        | c :: _ => !isWordChar c
      else false
    else false
  | _ => false

/-- Search for `\b1\s+store\s+only\b` anywhere in the text; `prevWord` says
whether the previous character was a word character (for the left `\b`). -/
def scanOneStoreOnly (prevWord : Bool) : List Char → Bool
  | [] => false
  | c :: rest =>
    (!prevWord && matchOneStoreAt (c :: rest)) || scanOneStoreOnly (isWordChar c) rest

/-- The `optimize_for` objective values of `PlanConstraints`. -/
inductive OptimizeFor
  | balanced
  | cheapest_overall
  | fastest_drive
deriving DecidableEq, Repr

/-- Model of the pydantic `PlanConstraints` record (trip constraints stored
as JSON on the user's `TripSession`). `max_stores` is `Optional[int]` in the
source but is only ever written from a regex digit run, hence `Option Nat`
here. -/
structure PlanConstraints where
  max_stores : Option Nat := none
  avoid_costco : Bool := false
  include_cheapest_gas : Bool := false
  optimize_for : OptimizeFor := .balanced
  must_include_costco : Bool := false
deriving DecidableEq, Repr

/-- The avoidance phrase family of rule 3 of `parse_constraints_from_text`. -/
def hasAvoidCostcoPhrase (t : List Char) : Bool :=
  charsContain "avoid costco".toList t || charsContain "no costco".toList t
    || charsContain "don\x27t go to costco".toList t
    || charsContain "dont go to costco".toList t

/-- The inclusion phrase family of rule 4 of `parse_constraints_from_text`. -/
def hasIncludeCostcoPhrase (t : List Char) : Bool :=
  charsContain "only costco".toList t
    || charsContain "costco + one grocery".toList t
    || charsContain "costco and one grocery".toList t
    || charsContain "costco and one other grocery".toList t
    || charsContain "i only want costco + one grocery store".toList t

/-- The cheapest-gas phrases of rule 5. -/
def hasCheapGasPhrase (t : List Char) : Bool :=
  charsContain "cheapest gas".toList t || charsContain "cheap gas".toList t

/-- The cheapest-overall objective phrases of rule 6. -/
def hasCheapestOverallPhrase (t : List Char) : Bool :=
  charsContain "cheapest overall".toList t
    || charsContain "lowest total cost".toList t
    || charsContain "as cheap as possible".toList t
    || charsContain "best price".toList t

/-- The fastest-drive objective phrases of rule 6. -/
def hasFastestDrivePhrase (t : List Char) : Bool :=
  charsContain "fastest drive".toList t
    || charsContain "shortest drive".toList t
    || charsContain "fastest route".toList t
    || charsContain "as fast as possible".toList t

/-- Rule 1: numeric store cap after a trigger word. -/
def applyMaxStoresRule (t : List Char) (c : PlanConstraints) : PlanConstraints :=
  match parseIntAfter t ["only", "max", "at most", "no more than", "limit"] with
  | some n => { c with max_stores := some n }
  | none => c

/-- Rule 2: literal "1 store only" forces `max_stores = 1`. -/
def applyOneStoreOnlyRule (t : List Char) (c : PlanConstraints) : PlanConstraints :=
  if scanOneStoreOnly false t then { c with max_stores := some 1 } else c

/-- Rule 3: avoidance phrases set `avoid_costco` and clear
`must_include_costco`. -/
def applyAvoidCostcoRule (t : List Char) (c : PlanConstraints) : PlanConstraints :=
  if hasAvoidCostcoPhrase t then
    { c with avoid_costco := true, must_include_costco := false }
  else c

/-- Rule 4: inclusion phrases set `must_include_costco`, clear
`avoid_costco`, and set `max_stores = 2`. -/
def applyIncludeCostcoRule (t : List Char) (c : PlanConstraints) : PlanConstraints :=
  if hasIncludeCostcoPhrase t then
    { c with must_include_costco := true, avoid_costco := false, max_stores := some 2 }
  else c

/-- Rule 5: cheapest-gas phrases set the advisory gas flag. -/
def applyCheapGasRule (t : List Char) (c : PlanConstraints) : PlanConstraints :=
  if hasCheapGasPhrase t then { c with include_cheapest_gas := true } else c

/-- Rule 6: the objective. The source is an `if`/`elif`, so the
cheapest-overall family is tested first and the fastest-drive family only
when no cheapest phrase occurred. -/
def applyOptimizeForRule (t : List Char) (c : PlanConstraints) : PlanConstraints :=
  if hasCheapestOverallPhrase t then { c with optimize_for := .cheapest_overall }
  else if hasFastestDrivePhrase t then { c with optimize_for := .fastest_drive }
  else c

/-- Model of `parse_constraints_from_text(text, existing)`: lowercase the
text and apply the six rules in source order, starting from `existing`.
The Python function mutates `existing` in place; this definition returns the
value `existing` holds after the call, which is also the function's return
value. -/
def parse_constraints_from_text (text : String) (existing : PlanConstraints) :
    PlanConstraints :=
  let t := lowerChars text.toList
  applyOptimizeForRule t
    (applyCheapGasRule t
      (applyIncludeCostcoRule t
        (applyAvoidCostcoRule t
          (applyOneStoreOnlyRule t
            (applyMaxStoresRule t existing)))))

/-- Models the constraint-update-and-save step acting on the stored
`TripSession.constraints` record, as written in `chat_assistant` (chat.py
lines 233–236) and again in `build_plan` (plans.py lines 471–477). In the
Python source, `parse_constraints_from_text` binds `c = existing or
PlanConstraints()` and mutates `c`'s fields in place, returning the very
object passed as `existing`; after the call, `existing_constraints` and
`updated_constraints` are therefore the same object, so the guard
`updated_constraints.model_dump() != existing_constraints.model_dump()`
compares the parse result with itself and `save_constraints` is never
reached. The two names after the call are modelled by their common value. -/
def updateStoredConstraints (stored : PlanConstraints) (message : String) :
    PlanConstraints :=
  let updated := parse_constraints_from_text message stored
  let existingAfterCall := updated
  if updated ≠ existingAfterCall then updated else stored

/-! ## Catalog matcher (app/catalog/fredmeyer_demo.py) -/

/-- A JSON-ish value of an ItemIntent's free-form attribute mapping. -/
inductive AttrVal
  | s (v : String)
  | b (v : Bool)
  | n (v : Int)
deriving DecidableEq, Repr

/-- Truthiness of an attribute value, as Python's `bool(v)` / `if v:`. -/
def AttrVal.truthy : AttrVal → Bool
  | .s v => !v.isEmpty
  | .b v => v
  | .n v => v != 0

/-- Model of an `ItemIntent` row (the fields the planning flow reads). -/
structure ItemIntent where
  id : String
  raw_text : String
  canonical_category : Option String
  attributes : List (String × AttrVal)
  quantity : Int
deriving DecidableEq, Repr

/-- Model of `intent.attributes.get(key)`. -/
def ItemIntent.attr (i : ItemIntent) (key : String) : Option AttrVal :=
  (i.attributes.find? (fun kv => kv.1 == key)).map Prod.snd

/-- One row of the demo catalog; optional fields model dict keys that only
some SKUs carry. -/
structure Sku where
  sku : String
  canonical_category : String
  name : String
  brand : String
  price : ℚ
  volume : Option String := none
  fat_level : Option String := none
  lactose_free : Option Bool := none
  egg_size : Option String := none
  count : Option Int := none
  flavor : Option String := none
  size_oz : Option Int := none
  type : Option String := none
  loads : Option Int := none
deriving DecidableEq, Repr

/-- Model of `sku.get(key)` for the attribute keys the exactness loop reads. -/
def Sku.getAttr (sku : Sku) : String → Option AttrVal
  | "fat_level" => sku.fat_level.map .s
  | "volume" => sku.volume.map .s
  | "lactose_free" => sku.lactose_free.map .b
  | "egg_size" => sku.egg_size.map .s
  | "flavor" => sku.flavor.map .s
  | "type" => sku.type.map .s
  | _ => none

def FRED_MEYER_STORE_ID : String := "fred_meyer_demo"

def FRED_MEYER_STORE_NAME : String := "Fred Meyer (demo)"

/-- The static demo catalog `FRED_MEYER_SKUS`. -/
def FRED_MEYER_SKUS : List Sku := [
  { sku := "fm_milk_2pct_1gal", canonical_category := "milk",
    name := "Fred Meyer 2% Milk 1 Gallon", brand := "Fred Meyer",
    volume := some "1 gallon", fat_level := some "2%",
    lactose_free := some false, price := 3.79 },
  { sku := "fm_milk_2pct_1gal_lf", canonical_category := "milk",
    name := "Fred Meyer 2% Lactose Free Milk 1 Gallon", brand := "Fred Meyer",
    volume := some "1 gallon", fat_level := some "2%",
    lactose_free := some true, price := 4.69 },
  { sku := "fm_milk_1pct_1gal", canonical_category := "milk",
    name := "Fred Meyer 1% Milk 1 Gallon", brand := "Fred Meyer",
    volume := some "1 gallon", fat_level := some "1%",
    lactose_free := some false, price := 3.59 },
  { sku := "fm_eggs_large_12", canonical_category := "eggs",
    name := "Fred Meyer Large Eggs 12 ct", brand := "Fred Meyer",
    egg_size := some "large", count := some 12, price := 2.49 },
  { sku := "fm_eggs_large_18", canonical_category := "eggs",
    name := "Fred Meyer Large Eggs 18 ct", brand := "Fred Meyer",
    egg_size := some "large", count := some 18, price := 3.59 },
  { sku := "fm_cereal_cornflakes_18oz", canonical_category := "cereal",
    name := "Kellogg's Corn Flakes 18 oz", brand := "Kellogg",
    flavor := some "corn flakes", size_oz := some 18, price := 4.29 },
  { sku := "fm_cereal_frootloops_14oz", canonical_category := "cereal",
    name := "Kellogg's Froot Loops 14 oz", brand := "Kellogg",
    flavor := some "froot loops", size_oz := some 14, price := 4.49 },
  { sku := "fm_detergent_tide_pods_42ct", canonical_category := "detergent",
    name := "Tide Pods Laundry Detergent 42 ct", brand := "Tide",
    type := some "pods", count := some 42, price := 14.99 },
  { sku := "fm_detergent_tide_liquid_64", canonical_category := "detergent",
    name := "Tide Liquid Laundry Detergent 64 loads", brand := "Tide",
    type := some "liquid", loads := some 64, price := 13.99 }
]

/-- Model of `_score_sku(intent, sku)`. Attribute values of a runtime type
other than the one each comparison expects (a non-string where `.lower()` is
called) would raise in Python; here they simply score 0, which no property
below exercises. -/
def score_sku (intent : ItemIntent) (sku : Sku) : Nat :=
  let cat_intent := lowerChars (intent.canonical_category.getD "").toList
  let cat_sku := lowerChars sku.canonical_category.toList
  if !cat_intent.isEmpty && cat_intent == cat_sku then
    let fat := match intent.attr "fat_level" with
      | some v =>
        if v.truthy && (match sku.fat_level with
          | some f => v == .s f
          | none => false) then 3 else 0
      | none => 0
    let vol := match intent.attr "volume" with
      | some (.s v) =>
        if !v.isEmpty
            && lowerChars v.toList == lowerChars (sku.volume.getD "").toList
        then 2 else 0
      | _ => 0
    let lf := match intent.attr "lactose_free" with
      | some v => if v.truthy == sku.lactose_free.getD false then 2 else 0
      | none => 0
    let brand := match intent.attr "brand" with
      | some (.s v) =>
        if !v.isEmpty then
          (if charsContain (lowerChars v.toList) (lowerChars sku.brand.toList)
           then 2 else 0)
          + (if charsContain (lowerChars v.toList) (lowerChars sku.name.toList)
             then 1 else 0)
        else 0
      | _ => 0
    let egg := match intent.attr "egg_size" with
      | some v =>
        if v.truthy && (match sku.egg_size with
          | some e => v == .s e
          | none => false) then 2 else 0
      | none => 0
    let flav := match intent.attr "flavor" with
      | some (.s v) =>
        if !v.isEmpty
            && charsContain (lowerChars v.toList)
                (lowerChars (sku.flavor.getD "").toList)
        then 2 else 0
      | _ => 0
    let dtype := match intent.attr "type" with
      | some (.s v) =>
        if !v.isEmpty
            && lowerChars v.toList == lowerChars (sku.type.getD "").toList
        then 2 else 0
      | _ => 0
    5 + fat + vol + lf + brand + egg + flav + dtype
  else 0

/-- Result shape of `match_skus_for_intent`. -/
structure MatchResult where
  exact : Option Sku
  alternatives : List Sku
  note : Option String
deriving DecidableEq, Repr

/-- Insert into a list already sorted by descending score, placing the new
element before the first entry whose score is at most its own. -/
def insertDescByScore (x : Nat × Sku) : List (Nat × Sku) → List (Nat × Sku)
  | [] => [x]
  | y :: ys => if x.1 ≥ y.1 then x :: y :: ys else y :: insertDescByScore x ys

/-- Stable descending insertion sort by score; models Python's stable
`scored.sort(key=lambda x: x[0], reverse=True)`: elements are processed
right to left, and each is placed after every strictly higher score and
before every equal or lower one, so equal scores keep catalog order. -/
def sortDescByScore : List (Nat × Sku) → List (Nat × Sku)
  | [] => []
  | x :: xs => insertDescByScore x (sortDescByScore xs)

/-- The category filter of `match_skus_for_intent`. -/
def candidatesFor (intent : ItemIntent) : List Sku :=
  FRED_MEYER_SKUS.filter (fun sku =>
    lowerChars sku.canonical_category.toList
      == lowerChars (intent.canonical_category.getD "").toList)

/-- The scored candidates with zero scores discarded (the `if s > 0` loop). -/
def scoredCandidates (intent : ItemIntent) : List (Nat × Sku) :=
  ((candidatesFor intent).map (fun sku => (score_sku intent sku, sku))).filter
    (fun p => decide (0 < p.1))

/-- The attribute keys the exactness loop of `match_skus_for_intent` checks. -/
def exactMatchKeys : List String :=
  ["fat_level", "volume", "lactose_free", "egg_size", "flavor", "type"]

/-- Whether the best SKU matches every requested attribute exactly
(`attrs[key] != best_sku.get(key)` for no checked key present in attrs).
Values compare by `AttrVal` equality; Python's cross-type numeric/boolean
equality (`0 == False`) differs only on attribute values of a type the
category vocabulary never uses. -/
def isExactFor (intent : ItemIntent) (sku : Sku) : Bool :=
  exactMatchKeys.all fun key =>
    match intent.attr key with
    | some v => sku.getAttr key == some v
    | none => true

/-- The human-readable substitution note synthesized on approximate match. -/
def substitutionNote (intent : ItemIntent) (best_sku : Sku)
    (alt_skus : List Sku) : String :=
  let intent_desc :=
    if intent.raw_text ≠ "" then intent.raw_text
    else if intent.canonical_category.getD "" ≠ "" then
      intent.canonical_category.getD ""
    else "item"
  let bestName := best_sku.name
  let alt_names := String.intercalate ", " (alt_skus.map (fun s => s.name))
  if alt_names ≠ "" then
    s!"At {FRED_MEYER_STORE_NAME}, I couldn’t find an exact match for \"{intent_desc}\". I suggest \"{bestName}\" instead. Other close options: {alt_names}."
  else
    s!"At {FRED_MEYER_STORE_NAME}, I couldn’t find an exact match for \"{intent_desc}\". I suggest \"{bestName}\" as the closest alternative."

/-- The tail of `match_skus_for_intent` once a best SKU and the alternative
SKUs are known; note that the source returns
`"alternatives": [best_sku] + alt_skus`, the best SKU included. -/
def mkMatchResult (intent : ItemIntent) (best_sku : Sku)
    (alt_skus : List Sku) : MatchResult :=
  { exact := if isExactFor intent best_sku then some best_sku else none,
    alternatives := best_sku :: alt_skus,
    note := if isExactFor intent best_sku then none
            else some (substitutionNote intent best_sku alt_skus) }

/-- Model of `match_skus_for_intent(intent)`: early empty results for a
missing category, no category candidates or no positive scores; otherwise
the stable score sort picks the best and the next up to 3 as `alt_skus`
(an empty `scored` and the sort of an empty list coincide in the `[]`
branch of the match). -/
def match_skus_for_intent (intent : ItemIntent) : MatchResult :=
  if (lowerChars (intent.canonical_category.getD "").toList).isEmpty then
    ⟨none, [], none⟩
  else if (candidatesFor intent).isEmpty then ⟨none, [], none⟩
  else
    match sortDescByScore (scoredCandidates intent) with
    | [] => ⟨none, [], none⟩
    | (_, best_sku) :: rest =>
      mkMatchResult intent best_sku ((rest.take 3).map Prod.snd)

/-- Exact rounding to cents; models Python's `round(x, 2)` on the binary
floats the source uses (ties may differ; no property here depends on them). -/
def round2 (q : ℚ) : ℚ := ((round (q * 100) : ℤ) : ℚ) / 100

/-- Exact rounding to one decimal place; models Python's `round(x, 1)`. -/
def round1 (q : ℚ) : ℚ := ((round (q * 10) : ℤ) : ℚ) / 10

/-- Result shape of `price_from_catalog`. -/
structure CatalogPrice where
  price : Option ℚ
  note : Option String
deriving DecidableEq, Repr

/-- Model of `price_from_catalog(intent)`: the exact SKU if any, else the
first alternative; unit price times `max(quantity or 1, 1)`, rounded to
cents, with the match note carried forward. -/
def price_from_catalog (intent : ItemIntent) : CatalogPrice :=
  let found := match_skus_for_intent intent
  match found.exact, found.alternatives with
  | some sku, _ =>
    let qty : Int := max (if intent.quantity == 0 then 1 else intent.quantity) 1
    ⟨some (round2 (sku.price * qty)), found.note⟩
  | none, sku :: _ =>
    let qty : Int := max (if intent.quantity == 0 then 1 else intent.quantity) 1
    ⟨some (round2 (sku.price * qty)), found.note⟩
  | none, [] => ⟨none, none⟩

/-! ## Plan building (app/api/v1/plans.py)

The builder of the three candidate plans, the admissibility filter with its
one-store fallback, the discount rule engine and plan selection, ported from
`build_plan` and its helpers. Substitution-note accumulation (used only
inside the final explanation text) and the watchlist updater are outside the
claims checked here and are not modelled. -/

/-- One entry of a plan's `stores` list. -/
structure StoreEntry where
  id : String
  name : String
  distance_minutes : ℚ
deriving DecidableEq, Repr

/-- One entry of a plan's `items` list; `travel_minutes` models the per-item
stub key that only the two- and three-store plans carry. -/
structure PlanItem where
  id : String
  raw_text : String
  canonical_category : Option String
  quantity : Int
  estimated_price : ℚ
  store_id : String
  store_name : String
  travel_minutes : Option ℚ := none
deriving DecidableEq, Repr

/-- A candidate plan dict; `discounts := none` models the key being absent
until the discount engine writes it. -/
structure Plan where
  label : String
  stores : List StoreEntry
  number_of_stores : Nat
  total_price : ℚ
  travel_minutes : ℚ
  items : List PlanItem
  discounts : Option (List String) := none
deriving DecidableEq, Repr

/-- Model of `(intent.canonical_category or "other").lower()`. -/
def categoryOrOther (i : ItemIntent) : List Char :=
  let c := i.canonical_category.getD ""
  lowerChars (if c = "" then "other" else c).toList

/-- Model of `estimate_price_for_item(intent, store_kind)`: category base
price times store-kind multiplier times `max(quantity, 1)`, rounded to
cents. -/
def estimate_price_for_item (intent : ItemIntent) (store_kind : String) : ℚ :=
  let cat := categoryOrOther intent
  let base : ℚ :=
    if cat == "milk".toList then 3.99
    else if cat == "eggs".toList then 2.49
    else if cat == "cereal".toList then 4.99
    else if cat == "tablet".toList then 699.0
    else if cat == "detergent".toList then 12.99
    else 5.0
  let kind := lowerChars store_kind.toList
  let multiplier : ℚ :=
    if kind == "store_a".toList || kind == "fred_meyer".toList then 1.0
    else if kind == "store_b".toList || kind == "warehouse_club".toList then 0.92
    else 1.05
  round2 (base * multiplier * max intent.quantity 1)

/-- The price of one item at the Fred Meyer store: the demo catalog's price
when it yields one, else the estimator — the pattern repeated for every
Fred Meyer leg of the three builders. -/
def itemPriceAtFredMeyer (i : ItemIntent) : ℚ :=
  match (price_from_catalog i).price with
  | some p => p
  | none => estimate_price_for_item i "fred_meyer"

/-- The one-store plan: every item at Fred Meyer, stub travel 10.0. -/
def buildOneStorePlan (intents : List ItemIntent) : Plan :=
  { label := "One-store plan (Fred Meyer)",
    stores := [{ id := FRED_MEYER_STORE_ID, name := FRED_MEYER_STORE_NAME,
                 distance_minutes := 10.0 }],
    number_of_stores := 1,
    total_price := round2 ((intents.map itemPriceAtFredMeyer).sum),
    travel_minutes := 10.0,
    items := intents.map (fun i =>
      { id := i.id, raw_text := i.raw_text,
        canonical_category := i.canonical_category, quantity := i.quantity,
        estimated_price := itemPriceAtFredMeyer i,
        store_id := FRED_MEYER_STORE_ID, store_name := FRED_MEYER_STORE_NAME }) }

/-- Routing of one item in the two-store plan:
(store_kind, store_id, store_name, per-item stub travel). -/
def twoStoreRoute (i : ItemIntent) : String × String × String × ℚ :=
  let cat := categoryOrOther i
  if cat == "milk".toList || cat == "eggs".toList || cat == "cereal".toList
      || cat == "detergent".toList then
    ("warehouse_club", "warehouse_club", "WarehouseClub", 18.0)
  else
    ("fred_meyer", FRED_MEYER_STORE_ID, FRED_MEYER_STORE_NAME, 10.0)

/-- The price of one item in the two-store plan: catalog only for the Fred
Meyer leg, estimator otherwise. -/
def twoStorePrice (i : ItemIntent) : ℚ :=
  if (twoStoreRoute i).1 == "fred_meyer" then itemPriceAtFredMeyer i
  else estimate_price_for_item i (twoStoreRoute i).1

/-- The two-store plan: milk/eggs/cereal/detergent at WarehouseClub, the
rest at Fred Meyer, stub travel 18.0. -/
def buildTwoStorePlan (intents : List ItemIntent) : Plan :=
  { label := "Two-store plan (Fred Meyer + WarehouseClub)",
    stores := [
      { id := FRED_MEYER_STORE_ID, name := FRED_MEYER_STORE_NAME,
        distance_minutes := 10.0 },
      { id := "warehouse_club", name := "WarehouseClub",
        distance_minutes := 18.0 }],
    number_of_stores := 2,
    total_price := round2 ((intents.map twoStorePrice).sum),
    travel_minutes := 18.0,
    items := intents.map (fun i =>
      { id := i.id, raw_text := i.raw_text,
        canonical_category := i.canonical_category, quantity := i.quantity,
        estimated_price := twoStorePrice i,
        store_id := (twoStoreRoute i).2.1, store_name := (twoStoreRoute i).2.2.1,
        travel_minutes := some (twoStoreRoute i).2.2.2 }) }

/-- Routing of one item in the three-store plan. -/
def threeStoreRoute (i : ItemIntent) : String × String × String × ℚ :=
  let cat := categoryOrOther i
  if cat == "milk".toList || cat == "eggs".toList || cat == "cereal".toList then
    ("warehouse_club", "warehouse_club", "WarehouseClub", 18.0)
  else if cat == "detergent".toList then
    ("fred_meyer", FRED_MEYER_STORE_ID, FRED_MEYER_STORE_NAME, 10.0)
  else
    ("neighborhood", "neighborhood_market", "NeighborhoodMarket", 12.0)

/-- The price of one item in the three-store plan. -/
def threeStorePrice (i : ItemIntent) : ℚ :=
  if (threeStoreRoute i).1 == "fred_meyer" then itemPriceAtFredMeyer i
  else estimate_price_for_item i (threeStoreRoute i).1

/-- The three-store plan: milk/eggs/cereal at WarehouseClub, detergent at
Fred Meyer, the rest at NeighborhoodMarket, stub travel 20.0. -/
def buildThreeStorePlan (intents : List ItemIntent) : Plan :=
  { label := "Three-store demo plan",
    stores := [
      { id := FRED_MEYER_STORE_ID, name := FRED_MEYER_STORE_NAME,
        distance_minutes := 10.0 },
      { id := "warehouse_club", name := "WarehouseClub",
        distance_minutes := 18.0 },
      { id := "neighborhood_market", name := "NeighborhoodMarket",
        distance_minutes := 12.0 }],
    number_of_stores := 3,
    total_price := round2 ((intents.map threeStorePrice).sum),
    travel_minutes := 20.0,
    items := intents.map (fun i =>
      { id := i.id, raw_text := i.raw_text,
        canonical_category := i.canonical_category, quantity := i.quantity,
        estimated_price := threeStorePrice i,
        store_id := (threeStoreRoute i).2.1, store_name := (threeStoreRoute i).2.2.1,
        travel_minutes := some (threeStoreRoute i).2.2.2 }) }

/-- Whether any store of the plan is the WarehouseClub brand. -/
def usesWarehouseClub (p : Plan) : Bool :=
  p.stores.any (fun s => s.name == "WarehouseClub")

/-- Model of the `plan_allowed` predicate of `build_plan`: the source's
sequence of `if cond: return False` checks, written as the conjunction of
their negations — max-store cap, avoid/must-include WarehouseClub, free-tier
single-store cap, and the Costco membership/add-on gate. -/
def plan_allowed (constraints : PlanConstraints) (is_free allow_costco : Bool)
    (p : Plan) : Bool :=
  (match constraints.max_stores with
   | some m => decide (p.number_of_stores ≤ m)
   | none => true)
  && (!constraints.avoid_costco || !usesWarehouseClub p)
  && (!constraints.must_include_costco || usesWarehouseClub p)
  && !(is_free && decide (1 < p.number_of_stores))
  && (allow_costco || !usesWarehouseClub p)

/-- Steps 5 and 7 of `build_plan`: build the three candidates, keep those
`plan_allowed` admits — in the dict insertion order one_store, two_store,
three_store — and fall back to exactly `{one_store}` when none survived. -/
def survivingPlans (constraints : PlanConstraints) (is_free allow_costco : Bool)
    (intents : List ItemIntent) : List (String × Plan) :=
  let one := buildOneStorePlan intents
  let two := buildTwoStorePlan intents
  let three := buildThreeStorePlan intents
  let plans :=
    (if plan_allowed constraints is_free allow_costco one
     then [("one_store", one)] else [])
    ++ (if plan_allowed constraints is_free allow_costco two
        then [("two_store", two)] else [])
    ++ (if plan_allowed constraints is_free allow_costco three
        then [("three_store", three)] else [])
  if plans.isEmpty then [("one_store", one)] else plans

/-! ## Discount engine (`apply_memberships_and_coupons`) -/

/-- Per-store subtotal of a plan: the sum of the estimated prices of the
items assigned to `store`, items without a store name defaulting to the
plan's first store (or "Unknown" when the plan has no stores). -/
def planSubtotalAt (p : Plan) (store : String) : ℚ :=
  let default_store_name := match p.stores with
    | [] => "Unknown"
    | s :: _ => s.name
  (p.items.map (fun it =>
    if (if it.store_name == "" then default_store_name else it.store_name)
        == store
    then it.estimated_price else 0)).sum

/-- Two-decimal rendering of a money amount for the discount description
strings (models Python's `:.2f` formatting of the float amount). -/
def money2 (q : ℚ) : String :=
  let cents : ℤ := round (q * 100)
  let whole := cents / 100
  let frac := (cents % 100).natAbs
  toString whole ++ "." ++ (if frac < 10 then "0" else "") ++ toString frac

/-- Discount rules of `apply_memberships_and_coupons` applied to one plan:
5% off the WarehouseClub subtotal for members (when that subtotal is
positive), a flat $5 off when the Fred Meyer subtotal reaches $50; the total
discount rounded to cents is subtracted from the total with a floor at zero,
and the `discounts` key is written — an explicit empty list when no rule
fired and the key was absent. -/
def applyDiscountsToPlan (member_brands : List String) (p : Plan) : Plan :=
  let wc_subtotal := planSubtotalAt p "WarehouseClub"
  let wcApplies := member_brands.contains "WarehouseClub"
    && decide (0 < wc_subtotal)
  let fm_subtotal := planSubtotalAt p FRED_MEYER_STORE_NAME
  let couponApplies := decide ((50.0 : ℚ) ≤ fm_subtotal)
  let discount_wc : ℚ := 0.05 * wc_subtotal
  let total_discount : ℚ :=
    (if wcApplies then discount_wc else 0) + (if couponApplies then 5.0 else 0)
  let amt := money2 discount_wc
  let descs : List String :=
    (if wcApplies then
      [s!"5% membership discount at WarehouseClub (−${amt})"]
     else [])
    ++ (if couponApplies then
      [s!"$5 coupon applied at {FRED_MEYER_STORE_NAME} (basket ≥ $50)"] else [])
  if 0 < total_discount then
    { p with
      total_price := round2 (max (p.total_price - round2 total_discount) 0),
      discounts := some descs }
  else if p.discounts = none then { p with discounts := some [] }
  else p

/-- Model of `apply_memberships_and_coupons(db, user, plans)`: the set of
store brands the user holds active memberships for is passed in as
`member_brands` (the source reads it from the database), and every plan of
the mapping is updated in place. -/
def apply_memberships_and_coupons (member_brands : List String)
    (plans : List (String × Plan)) : List (String × Plan) :=
  plans.map (fun kp => (kp.1, applyDiscountsToPlan member_brands kp.2))

/-! ## Plan selection (`ask_llm_to_choose_plan` tail and step 10 of `build_plan`) -/

/-- Falsiness of the oracle's explanation value: Python's `if not
explanation` is true for a missing key and for an empty string. -/
def strFalsy : Option String → Bool
  | none => true
  | some s => s.isEmpty

/-- The default explanation the invalid-key fallback writes inside
`ask_llm_to_choose_plan`. -/
def defaultKeyExplanation (k : String) : String :=
  s!"I defaulted to the \x27{k}\x27 plan."

/-- The default explanation `build_plan` writes when the oracle call raises. -/
def defaultErrorExplanation (k : String) : String :=
  s!"I defaulted to the \x27{k}\x27 plan because I could not evaluate preferences."

/-- The explanation of the single-candidate shortcut of `build_plan`. -/
def singleCandidateExplanation (k : String) : String :=
  s!"I selected the \x27{k}\x27 plan because the others did not satisfy your constraints or your current plan tier."

/-- The tail of `ask_llm_to_choose_plan` (lines 179–191): the parsed oracle
output (`data.get("recommended_plan")`, `data.get("explanation")`) is
validated against the offered plan keys; an invalid or missing key falls
back to the first key, writing the default explanation only when the
oracle's explanation is falsy. The first-key lookup on an empty mapping
would raise in Python; `build_plan` never offers an empty mapping. -/
def chooseFromOracle (plans : List (String × Plan)) (rec expl : Option String) :
    Option String × Option String :=
  let keys := plans.map Prod.fst
  if (match rec with
      | some r => keys.contains r
      | none => false) then (rec, expl)
  else
    match keys with
    | [] => (none, expl)
    | k :: _ => (some k, if strFalsy expl then some (defaultKeyExplanation k) else expl)

/-- Step 10 of `build_plan`: one surviving candidate is selected directly
with the single-candidate explanation; otherwise the oracle is consulted —
its raising modelled by the `Except.error` case, a successful return of
parsed JSON by `Except.ok` — and any exception is caught, falling back to
the first plan key with the build_plan default explanation. -/
def selectRecommendedPlan (plans : List (String × Plan))
    (oracle : Except Unit (Option String × Option String)) :
    Option String × Option String :=
  if plans.length == 1 then
    match plans with
    | (k, _) :: _ => (some k, some (singleCandidateExplanation k))
    | [] => (none, none)
  else
    match oracle with
    | .ok (rec, expl) => chooseFromOracle plans rec expl
    | .error _ =>
      match plans with
      | (k, _) :: _ => (some k, some (defaultErrorExplanation k))
      | [] => (none, none)

/-- Whether the oracle interaction failed: the call raised, or the
recommended key it returned is missing or not among the offered plan keys. -/
def oracleFailedOrInvalidKey (plans : List (String × Plan)) :
    Except Unit (Option String × Option String) → Bool
  | .error _ => true
  | .ok (rec, _) =>
    match rec with
    | none => true
    | some r => !(plans.map Prod.fst).contains r

/-! ## Travel augmenter (`augment_plan_with_drive_times`)

The external collaborators are passed as functions: `resolveLoc` models
`get_or_create_store_location` keyed on the store's name (the source passes
the store's name as both brand and display name), returning the stored or
freshly geocoded coordinates when available; `driveText` models
`drive_time_minutes_text_to_latlng` and `driveLL`
`drive_time_minutes_latlng_to_latlng`, `none` standing for a failed call. -/

/-- Collect a list of options into `some` of the values, `none` as soon as
one entry is `none`; models the source's check that every store location
carries coordinates. -/
def allSome {α : Type} : List (Option α) → Option (List α)
  | [] => some []
  | none :: _ => none
  | some a :: rest => (allSome rest).map (a :: ·)

/-- The effective destination text: a blank destination is treated as equal
to the (stripped) origin. -/
def effDestination (origin_text destination_text : String) : String :=
  if destination_text.trim = "" then origin_text.trim else destination_text.trim

/-- The legs of the route origin → store₁ → … → storeN → destination, each
`none` when its drive-time lookup is skipped (blank text) or fails. `first`
is the head of `locs` (nonempty at every use). -/
def routeLegOptions (driveText : String → ℚ × ℚ → Option ℚ)
    (driveLL : ℚ × ℚ → ℚ × ℚ → Option ℚ)
    (o d : String) (first : ℚ × ℚ) (locs : List (ℚ × ℚ)) : List (Option ℚ) :=
  [if o ≠ "" then driveText o first else none]
    ++ (locs.zip locs.tail).map (fun pr => driveLL pr.1 pr.2)
    ++ [if d ≠ "" then driveText d (locs.getLast?.getD first) else none]

/-- The source's accumulation of the route total: start at 0.0 and add each
leg that returned a value, skipping failures. -/
def accumLegs (legs : List (Option ℚ)) : ℚ :=
  legs.foldl (fun acc l => match l with | some m => acc + m | none => acc) 0

/-- The route total as the spec states it: the sum of only the legs that
succeeded. -/
def routeSum (legs : List (Option ℚ)) : ℚ := (legs.filterMap id).sum

/-- Model of `augment_plan_with_drive_times(db, plan, origin_text,
destination_text)`: no-op when the plan has no stores, when both stripped
texts are blank, or when any store fails to resolve to coordinates;
otherwise the per-store `distance_minutes` are overwritten for the legs that
succeed and the plan's `travel_minutes` is overwritten with the rounded
accumulated route total only when that total is positive. -/
def augment_plan_with_drive_times (resolveLoc : String → Option (ℚ × ℚ))
    (driveText : String → ℚ × ℚ → Option ℚ)
    (driveLL : ℚ × ℚ → ℚ × ℚ → Option ℚ)
    (plan : Plan) (origin_text destination_text : String) : Plan :=
  if plan.stores.isEmpty then plan
  else if origin_text.trim = "" ∧ destination_text.trim = "" then plan
  else
    match allSome (plan.stores.map (fun s => resolveLoc s.name)) with
    | none => plan
    | some locs =>
      match locs with
      | [] => plan
      | first :: _ =>
        let o := origin_text.trim
        let d := effDestination origin_text destination_text
        let stores2 := (plan.stores.zip locs).map (fun pr =>
          if o ≠ "" then
            match driveText o pr.2 with
            | some m => { pr.1 with distance_minutes := round1 m }
            | none => pr.1
          else pr.1)
        let total := accumLegs (routeLegOptions driveText driveLL o d first locs)
        if 0 < total then
          { plan with stores := stores2, travel_minutes := round1 total }
        else { plan with stores := stores2 }

/-! ## The free-tier prefix of `build_plan` (steps 1–4) -/

/-- The fields of a `User` row the planning flow reads or writes. -/
structure UserRec where
  plan : Option String
  has_costco_membership : Bool
  has_costco_addon : Bool
  free_items_limit : Nat
  free_plan_runs_limit : Nat
  free_plan_runs_used : Nat
deriving DecidableEq, Repr

/-- An HTTPException as raised by `build_plan`. -/
structure HttpError where
  status : Nat
  detail : String
deriving DecidableEq, Repr

/-- Model of `(user.plan or "free")`: Python's `or` replaces both a missing
and an empty plan string by "free". -/
def userPlanOrFree (user : UserRec) : String :=
  let p := user.plan.getD ""
  if p = "" then "free" else p

/-- Steps 1–4 of `build_plan` as a transition on the persisted state the
prefix touches: the free-tier run-cap check (402 without mutation), then the
increment-and-commit of `free_plan_runs_used`, then the trip-session
constraint step (whose save is dead code, see `updateStoredConstraints`),
then the pending-items query with its 400 error on an empty list. Returns
the committed user row, the stored constraints record, and the raised error
if any. -/
def buildPlanPrefix (user : UserRec) (stored : PlanConstraints)
    (preference : Option String) (pending : List ItemIntent) :
    UserRec × PlanConstraints × Option HttpError :=
  let is_free := userPlanOrFree user == "free"
  if is_free && decide (user.free_plan_runs_limit ≤ user.free_plan_runs_used) then
    let lim := toString user.free_plan_runs_limit
    (user, stored,
     some ⟨402, s!"Free tier plan runs exhausted ({lim} used). Upgrade to Premium for unlimited planning."⟩)
  else
    let user1 :=
      if is_free then
        { user with free_plan_runs_used := user.free_plan_runs_used + 1 }
      else user
    let stored1 := match preference with
      | some pref => updateStoredConstraints stored pref
      | none => stored
    if pending.isEmpty then
      (user1, stored1, some ⟨400, "No pending items to plan for"⟩)
    else (user1, stored1, none)

/-! ## Theorems -/

/-! ### Field-preservation lemmas for the parser rules -/

theorem applyMaxStoresRule_avoid (t : List Char) (c : PlanConstraints) :
    (applyMaxStoresRule t c).avoid_costco = c.avoid_costco := by
  unfold applyMaxStoresRule; split <;> rfl

theorem applyMaxStoresRule_must (t : List Char) (c : PlanConstraints) :
    (applyMaxStoresRule t c).must_include_costco = c.must_include_costco := by
  unfold applyMaxStoresRule; split <;> rfl

theorem applyOneStoreOnlyRule_avoid (t : List Char) (c : PlanConstraints) :
    (applyOneStoreOnlyRule t c).avoid_costco = c.avoid_costco := by
  unfold applyOneStoreOnlyRule; split <;> rfl

theorem applyOneStoreOnlyRule_must (t : List Char) (c : PlanConstraints) :
    (applyOneStoreOnlyRule t c).must_include_costco = c.must_include_costco := by
  unfold applyOneStoreOnlyRule; split <;> rfl

theorem applyAvoidCostcoRule_fired_avoid (t : List Char) (c : PlanConstraints)
    (h : hasAvoidCostcoPhrase t = true) :
    (applyAvoidCostcoRule t c).avoid_costco = true := by
  unfold applyAvoidCostcoRule; rw [h]; rfl

theorem applyAvoidCostcoRule_fired_must (t : List Char) (c : PlanConstraints)
    (h : hasAvoidCostcoPhrase t = true) :
    (applyAvoidCostcoRule t c).must_include_costco = false := by
  unfold applyAvoidCostcoRule; rw [h]; rfl

theorem applyIncludeCostcoRule_skip (t : List Char) (c : PlanConstraints)
    (h : hasIncludeCostcoPhrase t = false) :
    applyIncludeCostcoRule t c = c := by
  unfold applyIncludeCostcoRule; rw [h]; rfl

theorem applyCheapGasRule_avoid (t : List Char) (c : PlanConstraints) :
    (applyCheapGasRule t c).avoid_costco = c.avoid_costco := by
  unfold applyCheapGasRule; split <;> rfl

theorem applyCheapGasRule_must (t : List Char) (c : PlanConstraints) :
    (applyCheapGasRule t c).must_include_costco = c.must_include_costco := by
  unfold applyCheapGasRule; split <;> rfl

theorem applyOptimizeForRule_avoid (t : List Char) (c : PlanConstraints) :
    (applyOptimizeForRule t c).avoid_costco = c.avoid_costco := by
  unfold applyOptimizeForRule
  split
  · rfl
  · split <;> rfl

theorem applyOptimizeForRule_must (t : List Char) (c : PlanConstraints) :
    (applyOptimizeForRule t c).must_include_costco = c.must_include_costco := by
  unfold applyOptimizeForRule
  split
  · rfl
  · split <;> rfl

theorem applyOptimizeForRule_fastest (t : List Char) (c : PlanConstraints)
    (hch : hasCheapestOverallPhrase t = false)
    (hfa : hasFastestDrivePhrase t = true) :
    (applyOptimizeForRule t c).optimize_for = .fastest_drive := by
  unfold applyOptimizeForRule; rw [hch, hfa]; rfl

/-! ### Helper lemmas on lists -/

theorem list_eq_nil_of_isEmpty {α : Type} (l : List α) (h : l.isEmpty = true) :
    l = [] := by
  cases l with
  | nil => rfl
  | cons a as => simp [List.isEmpty] at h

theorem candidatesFor_eq_nil_of_no_cat (intent : ItemIntent)
    (h : (lowerChars (intent.canonical_category.getD "").toList).isEmpty = true) :
    candidatesFor intent = [] := by
  unfold candidatesFor
  rw [list_eq_nil_of_isEmpty _ h]
  rfl

theorem scoredCandidates_eq_nil (intent : ItemIntent)
    (h : candidatesFor intent = []) : scoredCandidates intent = [] := by
  unfold scoredCandidates
  rw [h]
  rfl

/-! ### C1 — persistence of parsed constraints across chat messages -/

/-- C1: the scenario "avoid costco" then "only 2 stores". The in-memory
parse results do carry `avoid_costco=true` and `max_stores=2`, but the
stored `TripSession.constraints` record is never updated: because
`parse_constraints_from_text` mutates and returns the very object it was
given, the difference check of `chat_assistant` (chat.py line 235) always
compares the parse result with itself, `save_constraints` is unreachable,
and the persisted record stays at its defaults after both messages. -/
theorem chat_constraints_never_persisted :
    updateStoredConstraints (updateStoredConstraints {} "avoid costco")
        "only 2 stores" = ({} : PlanConstraints) ∧
    ({} : PlanConstraints).avoid_costco = false ∧
    ({} : PlanConstraints).max_stores = none ∧
    (parse_constraints_from_text "only 2 stores"
        (parse_constraints_from_text "avoid costco" {})).avoid_costco = true ∧
    (parse_constraints_from_text "only 2 stores"
        (parse_constraints_from_text "avoid costco" {})).max_stores = some 2 ∧
    (parse_constraints_from_text "only 2 stores"
        (parse_constraints_from_text "avoid costco" {})).must_include_costco = false := by
  decide

/-! ### C2 — avoidance phrases set `avoid_costco` and clear `must_include_costco` -/

/-- C2 (counterexample): a text containing the avoidance phrase
"avoid costco" together with the inclusion phrase "only costco" does NOT end
with `avoid_costco=true`: rule 4 runs after rule 3 and overrides it, so the
claim "regardless of what else the text contains" fails on this input. -/
theorem avoidance_not_regardless_of_text_cex :
    hasAvoidCostcoPhrase (lowerChars "avoid costco but only costco".toList) = true ∧
    (parse_constraints_from_text "avoid costco but only costco" {}).avoid_costco = false ∧
    (parse_constraints_from_text "avoid costco but only costco" {}).must_include_costco
      = true := by
  decide

/-- C2 (amended): for every text containing an avoidance phrase and no
inclusion phrase, and every prior constraints value, the parse result has
`avoid_costco=true` and `must_include_costco=false`, regardless of the prior
value of `must_include_costco`. -/
theorem avoidance_sets_avoid_clears_include (text : String) (c : PlanConstraints)
    (hav : hasAvoidCostcoPhrase (lowerChars text.toList) = true)
    (hinc : hasIncludeCostcoPhrase (lowerChars text.toList) = false) :
    (parse_constraints_from_text text c).avoid_costco = true ∧
    (parse_constraints_from_text text c).must_include_costco = false := by
  unfold parse_constraints_from_text
  constructor
  · rw [applyOptimizeForRule_avoid, applyCheapGasRule_avoid,
      applyIncludeCostcoRule_skip _ _ hinc, applyAvoidCostcoRule_fired_avoid _ _ hav]
  · rw [applyOptimizeForRule_must, applyCheapGasRule_must,
      applyIncludeCostcoRule_skip _ _ hinc, applyAvoidCostcoRule_fired_must _ _ hav]

/-- C2 (witness): the amended theorem applied at the message
"please avoid costco" over a prior value with `must_include_costco=true`. -/
theorem avoidance_sets_avoid_clears_include_witness :
    (parse_constraints_from_text "please avoid costco"
        { must_include_costco := true }).avoid_costco = true ∧
    (parse_constraints_from_text "please avoid costco"
        { must_include_costco := true }).must_include_costco = false :=
  avoidance_sets_avoid_clears_include "please avoid costco"
    { must_include_costco := true } (by decide) (by decide)

/-! ### C3 — objective phrases: which family wins when both appear -/

/-- C3 (counterexample): a text containing both a cheapest-family and a
fastest-family phrase yields `optimize_for = cheapest_overall`, not
`fastest_drive`: the source tests the families with `if`/`elif`, so the
cheapest-family check runs first and wins when both appear. -/
theorem fastest_does_not_win_over_cheapest_cex :
    hasCheapestOverallPhrase
        (lowerChars "cheapest overall and fastest drive".toList) = true ∧
    hasFastestDrivePhrase
        (lowerChars "cheapest overall and fastest drive".toList) = true ∧
    (parse_constraints_from_text "cheapest overall and fastest drive" {}).optimize_for
      = .cheapest_overall := by
  decide

/-- C3 (amended): a fastest-family phrase sets `optimize_for = fastest_drive`
only when no cheapest-family phrase appears in the same text; when both
families appear, the cheapest-family wins (the `elif` never runs). -/
theorem fastest_phrase_sets_fastest_drive (text : String) (c : PlanConstraints)
    (hfa : hasFastestDrivePhrase (lowerChars text.toList) = true)
    (hch : hasCheapestOverallPhrase (lowerChars text.toList) = false) :
    (parse_constraints_from_text text c).optimize_for = .fastest_drive := by
  unfold parse_constraints_from_text
  exact applyOptimizeForRule_fastest _ _ hch hfa

/-- C3 (witness): the amended theorem applied at "fastest route please". -/
theorem fastest_phrase_sets_fastest_drive_witness :
    (parse_constraints_from_text "fastest route please" {}).optimize_for
      = .fastest_drive :=
  fastest_phrase_sets_fastest_drive "fastest route please" {} (by decide) (by decide)

/-! ### C4 — shape of the alternatives list of the catalog matcher -/

/-- A milk intent with no attributes, used as the C4 counterexample input. -/
def milkIntentNoAttrs : ItemIntent :=
  { id := "i-milk", raw_text := "milk", canonical_category := some "milk",
    attributes := [], quantity := 1 }

/-- C4 (counterexample): for a plain milk intent the matcher's best SKU
(`fm_milk_2pct_1gal`, also reported in the exact slot) IS a member of the
alternatives list — its first element — because the source returns
`"alternatives": [best_sku] + alt_skus`. The claim says the best SKU is not
a member of alternatives and that alternatives holds only the SKUs ranked
after it. -/
theorem best_sku_member_of_alternatives_cex :
    (match_skus_for_intent milkIntentNoAttrs).exact.map (fun s => s.sku)
      = some "fm_milk_2pct_1gal" ∧
    (match_skus_for_intent milkIntentNoAttrs).alternatives.map (fun s => s.sku)
      = ["fm_milk_2pct_1gal", "fm_milk_2pct_1gal_lf", "fm_milk_1pct_1gal"] := by
  constructor
  · rfl
  · rfl

/-- C4 (amended): for every item intent, the alternatives list is the first
up-to-4 entries of the score-sorted positive-scoring catalog candidates —
the best-scoring SKU first, followed by the next up to 3 — so it has at most
4 members, and whenever the exact slot is filled it holds the same SKU as
the head of the alternatives list. -/
theorem match_alternatives_top_ranked (intent : ItemIntent) :
    (match_skus_for_intent intent).alternatives
      = ((sortDescByScore (scoredCandidates intent)).map Prod.snd).take 4 ∧
    (match_skus_for_intent intent).alternatives.length ≤ 4 ∧
    ((match_skus_for_intent intent).exact.isSome = true →
      (match_skus_for_intent intent).alternatives.head?
        = (match_skus_for_intent intent).exact) := by
  unfold match_skus_for_intent
  cases h1 : (lowerChars (intent.canonical_category.getD "").toList).isEmpty with
  | true =>
    have hs : scoredCandidates intent = [] :=
      scoredCandidates_eq_nil intent (candidatesFor_eq_nil_of_no_cat intent h1)
    simp [hs, sortDescByScore]
  | false =>
    cases h2 : (candidatesFor intent).isEmpty with
    | true =>
      have hs : scoredCandidates intent = [] :=
        scoredCandidates_eq_nil intent (list_eq_nil_of_isEmpty _ h2)
      simp [hs, sortDescByScore]
    | false =>
      cases h3 : sortDescByScore (scoredCandidates intent) with
      | nil => simp
      | cons hd rest =>
        obtain ⟨sc, best⟩ := hd
        refine ⟨?_, ?_, ?_⟩
        · simp [mkMatchResult, List.map_take]
        · simp [mkMatchResult, List.length_take]
        · cases hE : isExactFor intent best with
          | true => simp [mkMatchResult, hE]
          | false => simp [mkMatchResult, hE]

/-! ### C5 — free-tier users never receive a multi-store plan -/

theorem plan_allowed_free_multi (c : PlanConstraints) (a : Bool) (p : Plan)
    (h : 1 < p.number_of_stores) :
    plan_allowed c true a p = false := by
  unfold plan_allowed
  cases hm : c.max_stores <;> simp [h]

theorem buildTwoStorePlan_stores_count (intents : List ItemIntent) :
    (buildTwoStorePlan intents).number_of_stores = 2 := rfl

theorem buildThreeStorePlan_stores_count (intents : List ItemIntent) :
    (buildThreeStorePlan intents).number_of_stores = 3 := rfl

/-- C5: for a free-tier user (`is_free = true`), every plan in the surviving
mapping — the admissible candidates, or the forced one_store fallback — has
`number_of_stores ≤ 1`: the two- and three-store candidates are always
rejected by the free-tier conjunct of `plan_allowed`, and the fallback is
the one-store plan. -/
theorem free_tier_survivors_single_store (constraints : PlanConstraints)
    (allow_costco : Bool) (intents : List ItemIntent) :
    ∀ kp ∈ survivingPlans constraints true allow_costco intents,
      kp.2.number_of_stores ≤ 1 := by
  intro kp hkp
  simp only [survivingPlans] at hkp
  rw [plan_allowed_free_multi constraints allow_costco (buildTwoStorePlan intents)
        (by rw [buildTwoStorePlan_stores_count]; omega),
      plan_allowed_free_multi constraints allow_costco (buildThreeStorePlan intents)
        (by rw [buildThreeStorePlan_stores_count]; omega)] at hkp
  by_cases h1 : plan_allowed constraints true allow_costco (buildOneStorePlan intents)
      = true
  · simp [h1] at hkp
    rw [hkp]
    exact Nat.le_refl 1
  · simp [h1] at hkp
    rw [hkp]
    exact Nat.le_refl 1

/-- An intent of category "other", used to instantiate witnesses. -/
def otherIntent : ItemIntent :=
  { id := "i-other", raw_text := "a thing", canonical_category := some "other",
    attributes := [], quantity := 1 }

/-- C5 (witness): the theorem applied to a free-tier user with default
constraints, one pending item and Costco access. -/
theorem free_tier_survivors_single_store_witness :
    ("one_store", buildOneStorePlan [otherIntent]).2.number_of_stores ≤ 1 :=
  free_tier_survivors_single_store {} true [otherIntent]
    ("one_store", buildOneStorePlan [otherIntent]) (List.Mem.head _)

/-! ### C6 — the fallback when no candidate is admissible -/

/-- C6: when none of the three candidates passes `plan_allowed`, the
surviving set handed to discounting and selection is exactly the single key
one_store mapped to the one-store plan. -/
theorem no_survivors_forces_one_store (constraints : PlanConstraints)
    (is_free allow_costco : Bool) (intents : List ItemIntent)
    (h1 : plan_allowed constraints is_free allow_costco
      (buildOneStorePlan intents) = false)
    (h2 : plan_allowed constraints is_free allow_costco
      (buildTwoStorePlan intents) = false)
    (h3 : plan_allowed constraints is_free allow_costco
      (buildThreeStorePlan intents) = false) :
    survivingPlans constraints is_free allow_costco intents
      = [("one_store", buildOneStorePlan intents)] := by
  unfold survivingPlans
  simp [h1, h2, h3]

/-- C6 (witness): with `max_stores = 0` every candidate fails the cap, and
the surviving set is exactly the one-store fallback. -/
theorem no_survivors_forces_one_store_witness :
    survivingPlans { max_stores := some 0 } false true [otherIntent]
      = [("one_store", buildOneStorePlan [otherIntent])] :=
  no_survivors_forces_one_store { max_stores := some 0 } false true [otherIntent]
    (by decide) (by decide) (by decide)

/-! ### C7 — discounts floor at zero and always write the discounts list -/

theorem round2_nonneg (q : ℚ) (h : 0 ≤ q) : 0 ≤ round2 q := by
  unfold round2
  have h1 : (0 : ℤ) ≤ round (q * 100) := by
    rw [round_eq]
    refine Int.floor_nonneg.mpr ?_
    linarith
  have h2 : (0 : ℚ) ≤ ((round (q * 100) : ℤ) : ℚ) := by exact_mod_cast h1
  positivity

theorem applyDiscounts_nonneg_isSome (brands : List String) (p : Plan)
    (hp : 0 ≤ p.total_price) :
    0 ≤ (applyDiscountsToPlan brands p).total_price ∧
    (applyDiscountsToPlan brands p).discounts.isSome = true := by
  have h2 : ∀ q : ℚ, 0 ≤ round2 (max q 0) :=
    fun q => round2_nonneg _ (le_max_right q 0)
  simp only [applyDiscountsToPlan]
  split_ifs
  all_goals try exact ⟨h2 _, rfl⟩
  all_goals try exact ⟨hp, rfl⟩
  all_goals rename_i hne
  all_goals exact ⟨hp, Option.ne_none_iff_isSome.mp hne⟩

/-- C7: after the discount engine runs over any set of plans whose totals
are nonnegative, every plan's total is still nonnegative (the rounded
discount is subtracted with a floor at zero) and every plan carries a
`discounts` list — an explicit empty one when no rule fired and none was
present. -/
theorem discounts_floor_zero_and_list (member_brands : List String)
    (plans : List (String × Plan))
    (h : ∀ kp ∈ plans, 0 ≤ kp.2.total_price) :
    ∀ kp ∈ apply_memberships_and_coupons member_brands plans,
      0 ≤ kp.2.total_price ∧ kp.2.discounts.isSome = true := by
  intro kp hkp
  unfold apply_memberships_and_coupons at hkp
  obtain ⟨kp', hmem, rfl⟩ := List.mem_map.mp hkp
  exact applyDiscounts_nonneg_isSome member_brands kp'.2 (h kp' hmem)

/-- An empty plan used to instantiate the discount and selection theorems. -/
def trivialPlan : Plan :=
  { label := "t", stores := [], number_of_stores := 0, total_price := 0,
    travel_minutes := 0, items := [] }

/-- C7 (witness): the theorem applied to a memberless user and one plan with
no items. -/
theorem discounts_floor_zero_and_list_witness :
    0 ≤ ("one_store", applyDiscountsToPlan [] trivialPlan).2.total_price ∧
    ("one_store", applyDiscountsToPlan [] trivialPlan).2.discounts.isSome = true :=
  discounts_floor_zero_and_list [] [("one_store", trivialPlan)]
    (by
      intro kp hkp
      rw [List.mem_singleton] at hkp
      subst hkp
      exact le_refl (0 : ℚ))
    ("one_store", applyDiscountsToPlan [] trivialPlan) (List.Mem.head _)

/-! ### C8 — deterministic fallback of plan selection -/

/-- C8 (counterexample): when the oracle returns an invalid key together
with a non-empty explanation, the selection does fall back to the first plan
key but keeps the oracle's own explanation — not a default one, as the claim
states (`if not explanation:` guards the default). -/
theorem oracle_invalid_key_keeps_explanation_cex :
    selectRecommendedPlan [("one_store", trivialPlan), ("two_store", trivialPlan)]
        (.ok (some "bogus", some "The two store plan is nice."))
      = (some "one_store", some "The two store plan is nice.") ∧
    "The two store plan is nice." ≠ defaultKeyExplanation "one_store" ∧
    "The two store plan is nice." ≠ defaultErrorExplanation "one_store" :=
  ⟨rfl, by decide, by decide⟩

/-- C8 (amended): with more than one surviving plan, whenever the oracle
call raises or returns a key that is not among the offered plan keys, the
selected plan is the first key of the mapping's iteration order and the
failure is not propagated; the explanation is the exception default on the
exception path, and the invalid-key default exactly when the oracle's own
explanation was empty or missing (a non-empty oracle explanation is kept). -/
theorem oracle_failure_falls_back_to_first_key
    (k : String) (p : Plan) (rest : List (String × Plan))
    (oracle : Except Unit (Option String × Option String))
    (hlen : rest ≠ [])
    (hbad : oracleFailedOrInvalidKey ((k, p) :: rest) oracle = true) :
    (selectRecommendedPlan ((k, p) :: rest) oracle).1 = some k ∧
    (∀ u, oracle = .error u →
      selectRecommendedPlan ((k, p) :: rest) oracle
        = (some k, some (defaultErrorExplanation k))) ∧
    (∀ rec expl, oracle = .ok (rec, expl) → strFalsy expl = true →
      (selectRecommendedPlan ((k, p) :: rest) oracle).2
        = some (defaultKeyExplanation k)) := by
  cases oracle with
  | error u =>
    refine ⟨?_, ?_, ?_⟩
    · simp [selectRecommendedPlan, hlen]
    · intro u' _
      simp [selectRecommendedPlan, hlen]
    · intro rec expl hcontra
      exact absurd hcontra (by simp)
  | ok pr =>
    obtain ⟨rec, expl⟩ := pr
    have hfall : ∀ e, chooseFromOracle ((k, p) :: rest) rec e
        = (some k,
           if strFalsy e = true then some (defaultKeyExplanation k) else e) := by
      intro e
      unfold chooseFromOracle
      cases rec with
      | none => simp
      | some r =>
        have hr : r ∉ ((k, p) :: rest).map Prod.fst := by
          unfold oracleFailedOrInvalidKey at hbad
          simpa using hbad
        simp at hr
        simp [hr]
    refine ⟨?_, ?_, ?_⟩
    · simp [selectRecommendedPlan, hlen, hfall]
    · intro u hcontra
      exact absurd hcontra (by simp)
    · intro rec' expl' heq hf
      injection heq with h
      injection h with h1 h2
      subst h1
      subst h2
      simp [selectRecommendedPlan, hlen, hfall, hf]

/-- C8 (witness): the amended theorem applied to a two-plan mapping and a
raising oracle. -/
theorem oracle_failure_falls_back_witness :
    (selectRecommendedPlan [("one_store", trivialPlan), ("two_store", trivialPlan)]
        (.error ())).1 = some "one_store" ∧
    (∀ u, (Except.error () : Except Unit (Option String × Option String)) = .error u →
      selectRecommendedPlan [("one_store", trivialPlan), ("two_store", trivialPlan)]
          (.error ())
        = (some "one_store", some (defaultErrorExplanation "one_store"))) ∧
    (∀ rec expl,
      (Except.error () : Except Unit (Option String × Option String)) = .ok (rec, expl) →
      strFalsy expl = true →
      (selectRecommendedPlan [("one_store", trivialPlan), ("two_store", trivialPlan)]
          (.error ())).2 = some (defaultKeyExplanation "one_store")) :=
  oracle_failure_falls_back_to_first_key "one_store" trivialPlan
    [("two_store", trivialPlan)] (.error ()) (List.cons_ne_nil _ _) rfl

/-! ### C9 — travel augmentation: frame conditions and the route total -/

theorem accumLegs_eq_routeSum (legs : List (Option ℚ)) :
    accumLegs legs = routeSum legs := by
  have haux : ∀ (l : List (Option ℚ)) (acc : ℚ),
      l.foldl (fun acc x => match x with | some m => acc + m | none => acc) acc
        = acc + (l.filterMap id).sum := by
    intro l
    induction l with
    | nil => intro acc; simp
    | cons x xs ih =>
      intro acc
      cases x with
      | none => simp [List.foldl, ih]
      | some m =>
        simp [List.foldl, ih]
        ring
  unfold accumLegs routeSum
  simpa using haux legs 0

/-- C9: `augment_plan_with_drive_times` leaves the plan entirely unchanged
when both origin and destination strip to blank, and when any store of the
plan fails to resolve to coordinates; otherwise failed legs contribute zero
to the route total — the total is the sum of only the successful legs of
origin → store₁ → … → storeN → destination — and `travel_minutes` is
overwritten with the rounded total exactly when that total is positive, the
stub value remaining otherwise. -/
theorem augment_frame_and_total (resolveLoc : String → Option (ℚ × ℚ))
    (driveText : String → ℚ × ℚ → Option ℚ)
    (driveLL : ℚ × ℚ → ℚ × ℚ → Option ℚ)
    (plan : Plan) (origin_text destination_text : String) :
    (origin_text.trim = "" ∧ destination_text.trim = "" →
      augment_plan_with_drive_times resolveLoc driveText driveLL plan
        origin_text destination_text = plan) ∧
    (allSome (plan.stores.map (fun s => resolveLoc s.name)) = none →
      augment_plan_with_drive_times resolveLoc driveText driveLL plan
        origin_text destination_text = plan) ∧
    (∀ first restLocs,
      allSome (plan.stores.map (fun s => resolveLoc s.name))
        = some (first :: restLocs) →
      ¬(origin_text.trim = "" ∧ destination_text.trim = "") →
      (augment_plan_with_drive_times resolveLoc driveText driveLL plan
          origin_text destination_text).travel_minutes =
        (if 0 < routeSum (routeLegOptions driveText driveLL origin_text.trim
              (effDestination origin_text destination_text) first
              (first :: restLocs))
         then round1 (routeSum (routeLegOptions driveText driveLL origin_text.trim
              (effDestination origin_text destination_text) first
              (first :: restLocs)))
         else plan.travel_minutes)) := by
  refine ⟨?_, ?_, ?_⟩
  · intro h
    unfold augment_plan_with_drive_times
    rw [h.1, h.2]
    simp
  · intro h
    unfold augment_plan_with_drive_times
    simp only [h]
    split
    · rfl
    · split
      · rfl
      · rfl
  · intro first restLocs hall hnb
    have hs : plan.stores.isEmpty = false := by
      cases hst : plan.stores with
      | nil =>
        rw [hst] at hall
        simp [allSome] at hall
      | cons a as => rfl
    simp only [augment_plan_with_drive_times, hs, Bool.false_eq_true, if_false,
      hall, accumLegs_eq_routeSum]
    rw [if_neg hnb]
    split
    · rfl
    · rfl

/-- C9 (witness): the no-op branch evaluated at a geocoder that resolves no
store, on the concrete one-store plan. -/
theorem augment_frame_witness :
    augment_plan_with_drive_times (fun _ => none) (fun _ _ => none)
      (fun _ _ => none) (buildOneStorePlan [otherIntent]) "home" "work"
      = buildOneStorePlan [otherIntent] :=
  (augment_frame_and_total (fun _ => none) (fun _ _ => none) (fun _ _ => none)
    (buildOneStorePlan [otherIntent]) "home" "work").2.1 rfl

/-! ### C10 — a failed no-items build still burns a free-tier run -/

theorem updateStoredConstraints_id (stored : PlanConstraints) (m : String) :
    updateStoredConstraints stored m = stored := by
  unfold updateStoredConstraints
  simp

/-- C10: for a free-tier user under the run cap but with no pending items,
`build_plan` increments and commits `free_plan_runs_used` before querying
for pending items, so the request fails with the 400 "No pending items to
plan for" error while the committed run counter has nevertheless been
incremented — the failed request is not state-preserving. -/
theorem build_plan_burns_run_on_empty_items
    (u : UserRec) (stored : PlanConstraints) (preference : Option String)
    (hfree : userPlanOrFree u = "free")
    (hruns : u.free_plan_runs_used < u.free_plan_runs_limit) :
    buildPlanPrefix u stored preference [] =
      ({ u with free_plan_runs_used := u.free_plan_runs_used + 1 }, stored,
       some ⟨400, "No pending items to plan for"⟩) := by
  have h1 : (userPlanOrFree u == "free") = true := by rw [hfree]; rfl
  have h2 : decide (u.free_plan_runs_limit ≤ u.free_plan_runs_used) = false := by
    simp
    omega
  unfold buildPlanPrefix
  rw [h1, h2]
  cases preference with
  | none => simp
  | some pref => simp [updateStoredConstraints_id]

/-- The free-tier user row of the C10 witness: fresh account, zero runs
used. -/
def freeUser0 : UserRec :=
  { plan := some "free", has_costco_membership := false,
    has_costco_addon := false, free_items_limit := 5,
    free_plan_runs_limit := 5, free_plan_runs_used := 0 }

/-- C10 (witness): the theorem applied to a fresh free-tier user. -/
theorem build_plan_burns_run_witness :
    buildPlanPrefix freeUser0 {} none [] =
      ({ freeUser0 with free_plan_runs_used := freeUser0.free_plan_runs_used + 1 },
       {}, some ⟨400, "No pending items to plan for"⟩) :=
  build_plan_burns_run_on_empty_items freeUser0 {} none rfl (by decide)

end KartQuake
